import Mathlib

/-!
Verification development for the Rainy Thoughts Notebook repository.

The first part embeds the fragment shader of `src/components/RainShader.tsx`
over the real numbers: GLSL built-ins (`fract`, `clamp`, `mix`, `smoothstep`,
`length`, `dot`, `normalize`, `reflect`) are translated to their defining
formulas, and every shader function (`N13`, `N`, `Saw`, `DropLayer2`,
`StaticDrops`, `GetHeightAndTrail`, `main`) is translated line by line.

The second part embeds the audio service (`src/services/audioService.ts`) and
the lightning scheduler of the App component over the rationals, with the
calls to `Math.random()` passed in as explicit parameters in `[0,1)`.
-/

namespace RainyThoughts

noncomputable section Shader

/-- GLSL `fract`. -/
def fract (x : ℝ) : ℝ := Int.fract x

/-- GLSL `floor`, kept real-valued as in the shader. -/
def floorR (x : ℝ) : ℝ := (⌊x⌋ : ℤ)

/-- GLSL `clamp(x, lo, hi) = min(max(x, lo), hi)`. -/
def clamp (x lo hi : ℝ) : ℝ := min (max x lo) hi

/-- GLSL `mix(a, b, t) = a*(1-t) + b*t`. -/
def mix (a b t : ℝ) : ℝ := a * (1 - t) + b * t

/-- GLSL `smoothstep(e0, e1, x)` by its defining formula. -/
def smoothstep (e0 e1 x : ℝ) : ℝ :=
  let t := clamp ((x - e0) / (e1 - e0)) 0 1
  t * t * (3 - 2 * t)

/-- GLSL `length` of a 2-vector. -/
def length2 (p : ℝ × ℝ) : ℝ := Real.sqrt (p.1 ^ 2 + p.2 ^ 2)

/-- A 3-component real vector, standing in for GLSL `vec3`. -/
structure Vec3 where
  x : ℝ
  y : ℝ
  z : ℝ

def v3 (x y z : ℝ) : Vec3 := ⟨x, y, z⟩

def Vec3.addScalar (a : Vec3) (c : ℝ) : Vec3 := ⟨a.x + c, a.y + c, a.z + c⟩

def Vec3.add (a b : Vec3) : Vec3 := ⟨a.x + b.x, a.y + b.y, a.z + b.z⟩

def Vec3.scale (c : ℝ) (a : Vec3) : Vec3 := ⟨c * a.x, c * a.y, c * a.z⟩

def dot3 (a b : Vec3) : ℝ := a.x * b.x + a.y * b.y + a.z * b.z

def length3 (a : Vec3) : ℝ := Real.sqrt (dot3 a a)

def normalize3 (a : Vec3) : Vec3 := ⟨a.x / length3 a, a.y / length3 a, a.z / length3 a⟩

/-- GLSL `reflect(i, n) = i - 2*dot(n, i)*n`. -/
def reflect3 (i n : Vec3) : Vec3 :=
  ⟨i.x - 2 * dot3 n i * n.x, i.y - 2 * dot3 n i * n.y, i.z - 2 * dot3 n i * n.z⟩

def mix3 (a b : Vec3) (t : ℝ) : Vec3 := ⟨mix a.x b.x t, mix a.y b.y t, mix a.z b.z t⟩

/-- Shader hash `N13`:
`p3 = fract(vec3(p) * vec3(.1031,.11369,.13787)); p3 += dot(p3, p3.yzx + 19.19);
 return fract(vec3((p3.x+p3.y)*p3.z, (p3.x+p3.z)*p3.y, (p3.y+p3.z)*p3.x));`. -/
def N13 (p : ℝ) : Vec3 :=
  let p3 := v3 (fract (p * 0.1031)) (fract (p * 0.11369)) (fract (p * 0.13787))
  let p3 := p3.addScalar (dot3 p3 (v3 (p3.y + 19.19) (p3.z + 19.19) (p3.x + 19.19)))
  v3 (fract ((p3.x + p3.y) * p3.z)) (fract ((p3.x + p3.z) * p3.y)) (fract ((p3.y + p3.z) * p3.x))

/-- Shader hash `N(t) = fract(sin(t*12345.564)*7658.76)`. -/
def N (t : ℝ) : ℝ := fract (Real.sin (t * 12345.564) * 7658.76)

/-- `Saw(b, t) = S(0, b, t) * S(1, b, t)`. -/
def Saw (b t : ℝ) : ℝ := smoothstep 0 b t * smoothstep 1 b t

/-- One moving droplet layer, translated line by line from `DropLayer2`.
Returns `vec2(height, trailMask)`. The uniform `uDropletSize` is the
parameter `size`. -/
def DropLayer2 (uv : ℝ × ℝ) (t size : ℝ) : ℝ × ℝ :=
  let UV := uv
  let uv1 : ℝ × ℝ := (uv.1 + Real.sin (uv.2 * 1.5) * 0.05, uv.2)
  let uv2 : ℝ × ℝ := (uv1.1, uv1.2 + t * 0.75)
  let grid : ℝ × ℝ := (10 * 2, 2.5 * 2)
  let id1 : ℝ × ℝ := (floorR (uv2.1 * grid.1), floorR (uv2.2 * grid.2))
  let colShift := N id1.1
  let uv3 : ℝ × ℝ := (uv2.1, uv2.2 + colShift)
  let id2 : ℝ × ℝ := (floorR (uv3.1 * grid.1), floorR (uv3.2 * grid.2))
  let n := N13 (id2.1 * 35.2 + id2.2 * 2376.1)
  let st : ℝ × ℝ := (fract (uv3.1 * grid.1) - 0.5, fract (uv3.2 * grid.2) - 0)
  let randomSize := n.z
  let sizeHierarchy := randomSize ^ 3
  let dropRadius := mix 0.2 0.65 sizeHierarchy * size
  let x0 := n.x - 0.5
  let y0 := UV.2 * 20
  let wiggle := Real.sin (y0 + Real.sin y0 + t * 2) * 0.05
  let x1 := x0 + wiggle * (0.5 - |x0|) * (n.z - 0.5)
  let ti := fract (t + n.z)
  let slideSpeed := mix 0.85 0.95 sizeHierarchy
  let y1 := (Saw slideSpeed ti - 0.5) * 0.9 + 0.5
  let d := length2 ((st.1 - x1) * 2.5, (st.2 - y1) * 10)
  let mainDrop := smoothstep dropRadius 0 d
  let heightMult := mix 0.3 1 sizeHierarchy
  let mainDrop1 := mainDrop * heightMult
  let r := Real.sqrt (smoothstep 1 y1 st.2)
  let cd := |st.1 - x1|
  let trail0 := smoothstep (0.23 * r) (0.15 * r * r) cd
  let trailFront := smoothstep (-0.02) 0.02 (st.2 - y1)
  let trail1 := trail0 * trailFront * r * r
  let y2 := UV.2
  let trail2 := smoothstep (0.2 * r) 0 cd
  let droplets := max 0 (Real.sin (y2 * (1 - y2) * 120) - st.2) * trail2 * trailFront * n.z
  let y3 := fract (y2 * 10) + (st.2 - 0.5)
  let dd := length2 (st.1 - x1, st.2 - y3)
  let dropletsHeight := smoothstep (0.2 * size) 0 dd
  let combinedHeight := mainDrop1 + dropletsHeight * trail2 * trailFront * heightMult
  (combinedHeight, trail1)

/-- The static mist layer `StaticDrops`. -/
def StaticDrops (uv : ℝ × ℝ) (t size : ℝ) : ℝ :=
  let uv1 : ℝ × ℝ := (uv.1 * 40, uv.2 * 40)
  let id1 : ℝ × ℝ := (floorR uv1.1, floorR uv1.2)
  let uv2 : ℝ × ℝ := (fract uv1.1 - 0.5, fract uv1.2 - 0.5)
  let n := N13 (id1.1 * 107.45 + id1.2 * 3543.654)
  let p : ℝ × ℝ := ((n.x - 0.5) * 0.7, (n.y - 0.5) * 0.7)
  let d := length2 (uv2.1 - p.1, uv2.2 - p.2)
  let fade := Saw 0.025 (fract (t + n.z))
  let h := smoothstep (0.2 * size) 0 d
  h * fract (n.z * 10) * fade

/-- The height-field compositor `GetHeightAndTrail`. -/
def GetHeightAndTrail (uv : ℝ × ℝ) (t l0 l1 l2 size : ℝ) : ℝ × ℝ :=
  let s := StaticDrops uv t size * l0
  let m1 := DropLayer2 uv t size
  let m2 := DropLayer2 (uv.1 * 1.85, uv.2 * 1.85) t size
  let h := s + m1.1 * l1 + m2.1 * l2
  (smoothstep 0 1 h, max (m1.2 * l1) (m2.2 * l2))

/-- The combined height summed by `GetHeightAndTrail` before its final
`smoothstep(0, 1, h)`. -/
def preSmoothHeight (uv : ℝ × ℝ) (t l0 l1 l2 size : ℝ) : ℝ :=
  StaticDrops uv t size * l0 + (DropLayer2 uv t size).1 * l1 +
    (DropLayer2 (uv.1 * 1.85, uv.2 * 1.85) t size).1 * l2

/-- The uniforms consumed by the fragment shader. -/
structure Uniforms where
  uTime : ℝ
  uRainIntensity : ℝ
  uRainSpeed : ℝ
  uDropletSize : ℝ
  uBlurStrength : ℝ
  uBrightness : ℝ
  uContrast : ℝ
  uRefraction : ℝ
  uZoom : ℝ
  uLightning : ℝ
  uResolution : ℝ × ℝ
  uHasTexture : Bool
  uAutoFit : Bool
  uImgAspect : ℝ

/-- The three layer gains computed in `main` from `uRainIntensity`:
static mist, primary moving layer, secondary moving layer. -/
def layerGains (rain : ℝ) : ℝ × ℝ × ℝ :=
  (smoothstep 0 1 rain * 0.3, smoothstep 0 0.8 rain, smoothstep 0.5 1 rain * 0.3)

/-- Zoom remapping: `uv = (vUv - 0.5) / uZoom + 0.5`. -/
def shaderUV (u : Uniforms) (vUv : ℝ × ℝ) : ℝ × ℝ :=
  ((vUv.1 - 0.5) / u.uZoom + 0.5, (vUv.2 - 0.5) / u.uZoom + 0.5)

/-- Aspect-corrected coordinate: `physUV = uv * vec2(res.x/res.y, 1)`. -/
def physUV (u : Uniforms) (vUv : ℝ × ℝ) : ℝ × ℝ :=
  ((shaderUV u vUv).1 * (u.uResolution.1 / u.uResolution.2), (shaderUV u vUv).2)

/-- The height/trail pair sampled by `main` at the zoomed, aspect-corrected
coordinate, with the rain-intensity-derived layer gains. -/
def heightTrailAt (u : Uniforms) (vUv : ℝ × ℝ) : ℝ × ℝ :=
  let g := layerGains u.uRainIntensity
  GetHeightAndTrail (physUV u vUv) (u.uTime * u.uRainSpeed) g.1 g.2.1 g.2.2 u.uDropletSize

/-- The finite-difference refraction normal of `main`:
`normal = vec2(h - h_right, h - h_up) * 15 * uRefraction`. -/
def normalAt (u : Uniforms) (vUv : ℝ × ℝ) : ℝ × ℝ :=
  let g := layerGains u.uRainIntensity
  let p := physUV u vUv
  let T := u.uTime * u.uRainSpeed
  let texel := 1 / u.uResolution.2
  let h := (GetHeightAndTrail p T g.1 g.2.1 g.2.2 u.uDropletSize).1
  let hRight := (GetHeightAndTrail (p.1 + texel, p.2) T g.1 g.2.1 g.2.2 u.uDropletSize).1
  let hUp := (GetHeightAndTrail (p.1, p.2 + texel) T g.1 g.2.1 g.2.2 u.uDropletSize).1
  ((h - hRight) * 15 * u.uRefraction, (h - hUp) * 15 * u.uRefraction)

/-- `refractionUV = uv - normal`. -/
def refractionUVAt (u : Uniforms) (vUv : ℝ × ℝ) : ℝ × ℝ :=
  ((shaderUV u vUv).1 - (normalAt u vUv).1, (shaderUV u vUv).2 - (normalAt u vUv).2)

/-- Auto-fit COVER transform of the image path in `main`: when the screen is
wider than the image only the vertical texture coordinate is rescaled,
otherwise only the horizontal one. -/
def coverFit (screenAspect imgAspect : ℝ) (texUv : ℝ × ℝ) : ℝ × ℝ :=
  if imgAspect < screenAspect then
    (texUv.1, (texUv.2 - 0.5) / (screenAspect / imgAspect) + 0.5)
  else
    ((texUv.1 - 0.5) / (imgAspect / screenAspect) + 0.5, texUv.2)

/-- The procedural "Cinematic Atmosphere" background of `main`, translated
line by line (gradient, three bokeh glows, rays, film grain). -/
def proceduralBg (bgUV vUv : ℝ × ℝ) (uTime : ℝ) : Vec3 :=
  let t := uTime * 1
  let colTop := v3 0.55 0.75 0.95
  let colMid := v3 0.98 0.72 0.55
  let colBot := v3 0.2 0.25 0.5
  let waveUV : ℝ × ℝ := (bgUV.1 + Real.sin (bgUV.2 * 2 + t * 0.8) * 0.1,
                          bgUV.2 + Real.cos (bgUV.1 * 1.5 + t * 0.6) * 0.1)
  let y := waveUV.2
  let bg := mix3 colBot colMid (smoothstep (-0.2) 0.5 y)
  let bg := mix3 bg colTop (smoothstep 0.4 1.1 y)
  let posA : ℝ × ℝ := (0.5 + Real.sin (t * 0.3) * 0.7, 0.4 + Real.cos (t * 0.2) * 0.4)
  let distA := length2 ((bgUV.1 - posA.1) * 1, (bgUV.2 - posA.2) * 1.5)
  let glowA := smoothstep 0.6 0 distA
  let bg := bg.add ((v3 1 0.8 0.4).scale (glowA * 0.18))
  let posB : ℝ × ℝ := (0.5 + Real.cos (t * 0.4 + 2) * 0.6, 0.3 + Real.sin (t * 0.3) * 0.3)
  let distB := length2 ((bgUV.1 - posB.1) * 1, (bgUV.2 - posB.2) * 1.5)
  let glowB := smoothstep 0.5 0 distB
  let bg := bg.add ((v3 1 0.4 0.5).scale (glowB * 0.15))
  let posC : ℝ × ℝ := (0.5 + Real.sin (t * 0.6) * 0.3, 0.8 + Real.cos (t * 0.2) * 0.1)
  let distC := length2 (bgUV.1 - posC.1, bgUV.2 - posC.2)
  let glowC := smoothstep 0.45 0 distC
  let glowC := glowC * (0.8 + 0.2 * Real.sin (uTime * 1.5))
  let bg := bg.add ((v3 0.85 0.95 1).scale (glowC * 0.12))
  let rays := Real.sin (bgUV.1 * 3 - uTime * 2 + bgUV.2 * 2)
  let rays := rays + Real.sin (bgUV.1 * 2 + uTime * 1)
  let rays := smoothstep 0 1 rays
  let bg := bg.add ((v3 1 1 0.9).scale (rays * 0.06))
  let noise := N ((vUv.1 * 12.9898 + vUv.2 * 78.233) + uTime)
  bg.addScalar ((noise - 0.5) * 0.04)

/-- The fragment shader `main`, as a function of the uniforms, the (mip-biased)
background texture sampler `tex : coordinate -> bias -> color`, and the
varying `vUv`. Produces the value written to `gl_FragColor` (rgb). -/
def mainColor (u : Uniforms) (tex : ℝ × ℝ → ℝ → Vec3) (vUv : ℝ × ℝ) : Vec3 :=
  let uv := shaderUV u vUv
  let ht := heightTrailAt u vUv
  let h := ht.1
  let trail := ht.2
  let normal := normalAt u vUv
  let refractionUV : ℝ × ℝ := (uv.1 - normal.1, uv.2 - normal.2)
  let focus := mix (u.uBlurStrength * 6) 0 (smoothstep 0 0.4 (h + trail))
  let col :=
    if u.uHasTexture then
      let texUv := if u.uAutoFit then
          coverFit (u.uResolution.1 / u.uResolution.2) u.uImgAspect refractionUV
        else refractionUV
      tex texUv focus
    else proceduralBg refractionUV vUv u.uTime
  let col := if 0 < u.uLightning then mix3 col (v3 0.8 0.9 1) (u.uLightning * 0.6) else col
  let lightDir := normalize3 (v3 (-0.5) 1 0.5)
  let viewDir := v3 0 0 1
  let Nv := normalize3 (v3 (normal.1 * 2) (normal.2 * 2) 1)
  let specular := (max 0 (dot3 (reflect3 (lightDir.scale (-1)) Nv) viewDir)) ^ 32 * 0.8
  let fresnel := (1 - max 0 (dot3 Nv viewDir)) ^ 3 * 0.3
  let dropMask := smoothstep 0.01 0.1 h
  let col := col.addScalar ((specular + fresnel) * dropMask)
  let col := col.scale (mix 1 0.9 (dropMask * length2 normal))
  let vig := 1 - length2 (vUv.1 - 0.5, vUv.2 - 0.5) * 0.2
  let col := col.scale vig
  let col := col.scale u.uBrightness
  ⟨(col.x - 0.5) * u.uContrast + 0.5, (col.y - 0.5) * u.uContrast + 0.5,
    (col.z - 0.5) * u.uContrast + 0.5⟩

/-- The color actually stored by the normalized render target: writing
`gl_FragColor` to a unorm surface clamps each channel to `[0,1]`. -/
def displayedColor (u : Uniforms) (tex : ℝ × ℝ → ℝ → Vec3) (vUv : ℝ × ℝ) : Vec3 :=
  let c := mainColor u tex vUv
  ⟨clamp c.x 0 1, clamp c.y 0 1, clamp c.z 0 1⟩

/-- The same pipeline with the rain contribution removed: the background is
sampled at the unrefracted `uv` and no droplet lighting is added. Used to
state that `rainIntensity = 0` makes refraction a no-op. -/
def renderNoRain (u : Uniforms) (tex : ℝ × ℝ → ℝ → Vec3) (vUv : ℝ × ℝ) : Vec3 :=
  let uv := shaderUV u vUv
  let focus := u.uBlurStrength * 6
  let col :=
    if u.uHasTexture then
      let texUv := if u.uAutoFit then
          coverFit (u.uResolution.1 / u.uResolution.2) u.uImgAspect uv
        else uv
      tex texUv focus
    else proceduralBg uv vUv u.uTime
  let col := if 0 < u.uLightning then mix3 col (v3 0.8 0.9 1) (u.uLightning * 0.6) else col
  let vig := 1 - length2 (vUv.1 - 0.5, vUv.2 - 0.5) * 0.2
  let col := col.scale vig
  let col := col.scale u.uBrightness
  ⟨(col.x - 0.5) * u.uContrast + 0.5, (col.y - 0.5) * u.uContrast + 0.5,
    (col.z - 0.5) * u.uContrast + 0.5⟩

/-- The lightning-distance formula of `triggerLightningEvent` in the App
component: `Math.max(0, Math.min(1, raw - bias * 0.3))` where `raw` is the
uniform draw and `bias` the storm intensity. Stated over the reals so that
the expected value over the draw can be expressed as an integral. -/
def lightningDistance (raw intensity : ℝ) : ℝ := max 0 (min 1 (raw - intensity * 0.3))

end Shader

section AudioModel

/-- Pool size of the one-shot thunder pool (`THUNDER_POOL_SIZE`). -/
def THUNDER_POOL_SIZE : ℕ := 4

/-- The audio-service state relevant to `triggerThunder`: the `isInitialized`
flag, the global volume scalar, and the `paused` flag of each pooled
thunder `Audio` element. -/
structure AudioState where
  isInit : Bool
  globalVolumeScalar : ℚ
  thunderPaused : List Bool

/-- `setGlobalVolume` clamps its argument into `[0,1]`. -/
def setGlobalVolume (st : AudioState) (volume : ℚ) : AudioState :=
  { st with globalVolumeScalar := max 0 (min 1 volume) }

/-- The playback scheduled by one `triggerThunder` call: the chosen pool
slot and the delay/volume/rate passed to the pooled audio element. -/
structure ThunderPlay where
  slot : ℕ
  delayMs : ℚ
  volume : ℚ
  rate : ℚ

/-- Index of the first pool element whose `paused` flag is set — the JS
`thunderPool.find(a => a.paused)`. -/
def firstPausedIdx : List Bool → Option ℕ
  | [] => none
  | b :: rest => if b then some 0 else (firstPausedIdx rest).map (· + 1)

/-- `triggerThunder(distance)`, with the two `Math.random()` draws passed as
`r1, r2`. Returns `none` when the early-return guard fires (nothing is
scheduled and no state changes), otherwise the scheduled playback. -/
def triggerThunder (st : AudioState) (distance r1 r2 : ℚ) : Option ThunderPlay :=
  if st.isInit = false ∨ st.globalVolumeScalar ≤ 0.05 then none
  else
    some { slot := (firstPausedIdx st.thunderPaused).getD 0,
           delayMs := distance * 4000 + r1 * 500,
           volume := max 0.1 ((1 - distance) * 0.8) * st.globalVolumeScalar,
           rate := 1.1 - distance * 0.5 + r2 * 0.1 }

end AudioModel

section SchedulerModel

/-- State of the App's lightning scheduler: the storm intensity currently
seen by the effect, and the pending `setTimeout` delay, if any (`Armed`
when `some`, `Idle` when `none`). -/
structure SchedState where
  intensity : ℚ
  timer : Option ℚ
deriving DecidableEq

/-- `scheduleLightning`: returns the freshly armed delay
`5000 + random() * ((1 - intensity) * 40000)`, unless the
`stormIntensity <= 0.01` guard fires. -/
def scheduleLightning (intensity r : ℚ) : Option ℚ :=
  if intensity ≤ 0.01 then none else some (5000 + r * ((1 - intensity) * 40000))

/-- The lightning `useEffect` body re-running after `stormIntensity` changes
to `v`: the pending timer is cleared (`clearTimeout`) and, if `v > 0`,
`scheduleLightning` arms a fresh timer using the new intensity. -/
def setIntensity (s : SchedState) (v r : ℚ) : SchedState :=
  { intensity := v, timer := if 0 < v then scheduleLightning v r else none }

/-- The externally observable output of one timer expiry: the visual flash
brightness (if any) and the distance forwarded to `triggerThunder` (if any). -/
structure FireOutput where
  flash : Option ℚ
  thunder : Option ℚ
deriving DecidableEq

def silentOutput : FireOutput := ⟨none, none⟩

/-- `triggerLightningEvent` with the stochastic-gate draw `rGate` and the
distance draw `rRaw`. A draw `rGate > 0.8` skips the event entirely; the
double flash repeats the same brightness and is not modelled separately. -/
def triggerLightningEvent (intensity : ℚ) (audio : Bool) (rGate rRaw : ℚ) : FireOutput :=
  if 0.8 < rGate then silentOutput
  else
    let distance := max 0 (min 1 (rRaw - intensity * 0.3))
    let brightness := (1 - distance) * 0.8 + 0.2
    { flash := some brightness, thunder := if audio then some distance else none }

/-- Events acting on the scheduler: a `stormIntensity` change (which re-runs
the effect) or the expiry of the pending timer (which fires
`triggerLightningEvent` and re-arms via `scheduleLightning`). -/
inductive SchedEv where
  | set (v r : ℚ)
  | fire (rGate rRaw rNext : ℚ)

def schedStep (audio : Bool) (s : SchedState) : SchedEv → SchedState × FireOutput
  | .set v r => (setIntensity s v r, silentOutput)
  | .fire rGate rRaw rNext =>
    match s.timer with
    | none => (s, silentOutput)
    | some _ => ({ intensity := s.intensity, timer := scheduleLightning s.intensity rNext },
                 triggerLightningEvent s.intensity audio rGate rRaw)

def schedRun (audio : Bool) (s : SchedState) : List SchedEv → SchedState × List FireOutput
  | [] => (s, [])
  | e :: rest =>
    let p := schedStep audio s e
    let q := schedRun audio p.1 rest
    (q.1, p.2 :: q.2)

/-- Whether an event raises the storm intensity above zero. -/
def raisesIntensity : SchedEv → Bool
  | .set v _ => decide (0 < v)
  | .fire _ _ _ => false

/-- Boolean check that a run produced no flash and no thunder events. -/
def outputsSilent (outs : List FireOutput) : Bool :=
  outs.all fun o => decide (o = silentOutput)

end SchedulerModel

section TextureModel

/-- State of the background-texture `useEffect` in the `RainShader`
component: the currently selected `backgroundUrl`, the texture currently
used for rendering (identified by the URL it was loaded from), and the
loads still in flight. -/
structure TexState where
  selected : Option String
  current : Option String
  inflight : List String
deriving DecidableEq

/-- `settings.backgroundUrl` changes: for a URL the effect starts a
`TextureLoader().load` (the current texture is kept until the callback
runs); for `null` it calls `setTexture(null)`. -/
def selectBackground (s : TexState) (u : Option String) : TexState :=
  match u with
  | some url => { selected := some url, current := s.current, inflight := s.inflight ++ [url] }
  | none => { selected := none, current := none, inflight := s.inflight }

/-- A pending load for `url` completes: the callback runs
`setTexture(tex)` unconditionally — there is no cleanup function and no
check that `url` is still the selected background. -/
def textureLoaded (s : TexState) (url : String) : TexState :=
  if url ∈ s.inflight then
    { selected := s.selected, current := some url, inflight := s.inflight.erase url }
  else s

end TextureModel

section Basic

lemma fract_mem (x : ℝ) : 0 ≤ fract x ∧ fract x < 1 :=
  ⟨Int.fract_nonneg x, Int.fract_lt_one x⟩

lemma clamp_mem (x : ℝ) {lo hi : ℝ} (h : lo ≤ hi) : lo ≤ clamp x lo hi ∧ clamp x lo hi ≤ hi :=
  ⟨le_min (le_max_right x lo) h, min_le_right _ _⟩

lemma smoothstep_mem (e0 e1 x : ℝ) : 0 ≤ smoothstep e0 e1 x ∧ smoothstep e0 e1 x ≤ 1 := by
  have ht := clamp_mem ((x - e0) / (e1 - e0)) (zero_le_one)
  set t := clamp ((x - e0) / (e1 - e0)) 0 1 with htdef
  constructor
  · show 0 ≤ t * t * (3 - 2 * t)
    nlinarith [ht.1, ht.2]
  · show t * t * (3 - 2 * t) ≤ 1
    nlinarith [ht.1, ht.2, sq_nonneg (1 - t)]

lemma N13_x_mem (p : ℝ) : 0 ≤ (N13 p).x ∧ (N13 p).x < 1 := by
  simp only [N13, v3, Vec3.addScalar, dot3]
  exact fract_mem _

lemma N13_y_mem (p : ℝ) : 0 ≤ (N13 p).y ∧ (N13 p).y < 1 := by
  simp only [N13, v3, Vec3.addScalar, dot3]
  exact fract_mem _

lemma N13_z_mem (p : ℝ) : 0 ≤ (N13 p).z ∧ (N13 p).z < 1 := by
  simp only [N13, v3, Vec3.addScalar, dot3]
  exact fract_mem _

lemma N_mem (t : ℝ) : 0 ≤ N t ∧ N t < 1 := fract_mem _

lemma Saw_mem (b t : ℝ) : 0 ≤ Saw b t ∧ Saw b t ≤ 1 := by
  have h1 := smoothstep_mem 0 b t
  have h2 := smoothstep_mem 1 b t
  exact ⟨mul_nonneg h1.1 h2.1, mul_le_one₀ h1.2 h2.1 h2.2⟩

lemma sqrt_smoothstep_mem (e0 e1 x : ℝ) :
    0 ≤ Real.sqrt (smoothstep e0 e1 x) ∧ Real.sqrt (smoothstep e0 e1 x) ≤ 1 :=
  ⟨Real.sqrt_nonneg _, Real.sqrt_le_one.mpr (smoothstep_mem e0 e1 x).2⟩

lemma heightMult_mem {z : ℝ} (hz : 0 ≤ z ∧ z < 1) :
    0 ≤ mix 0.3 1 (z ^ 3) ∧ mix 0.3 1 (z ^ 3) ≤ 1 := by
  have h0 : 0 ≤ z ^ 3 := pow_nonneg hz.1 3
  have h1 : z ^ 3 ≤ 1 := pow_le_one₀ hz.1 hz.2.le
  constructor <;> (simp only [mix]; nlinarith)

lemma combined_height_mem {s1 dh t2 tf hm : ℝ}
    (hs1 : 0 ≤ s1 ∧ s1 ≤ 1) (hdh : 0 ≤ dh ∧ dh ≤ 1) (ht2 : 0 ≤ t2 ∧ t2 ≤ 1)
    (htf : 0 ≤ tf ∧ tf ≤ 1) (hhm : 0 ≤ hm ∧ hm ≤ 1) :
    0 ≤ s1 * hm + dh * t2 * tf * hm ∧ s1 * hm + dh * t2 * tf * hm ≤ 2 := by
  have a1 : s1 * hm ≤ 1 := mul_le_one₀ hs1.2 hhm.1 hhm.2
  have a2 : dh * t2 ≤ 1 := mul_le_one₀ hdh.2 ht2.1 ht2.2
  have a3 : dh * t2 * tf ≤ 1 := mul_le_one₀ a2 htf.1 htf.2
  have a4 : dh * t2 * tf * hm ≤ 1 := mul_le_one₀ a3 hhm.1 hhm.2
  have b1 : 0 ≤ s1 * hm := mul_nonneg hs1.1 hhm.1
  have b2 : 0 ≤ dh * t2 * tf * hm :=
    mul_nonneg (mul_nonneg (mul_nonneg hdh.1 ht2.1) htf.1) hhm.1
  constructor <;> linarith

lemma trail_mem {s1 tf r : ℝ} (hs1 : 0 ≤ s1 ∧ s1 ≤ 1) (htf : 0 ≤ tf ∧ tf ≤ 1)
    (hr : 0 ≤ r ∧ r ≤ 1) :
    0 ≤ s1 * tf * r * r ∧ s1 * tf * r * r ≤ 1 := by
  have a1 : s1 * tf ≤ 1 := mul_le_one₀ hs1.2 htf.1 htf.2
  have a2 : s1 * tf * r ≤ 1 := mul_le_one₀ a1 hr.1 hr.2
  have a3 : s1 * tf * r * r ≤ 1 := mul_le_one₀ a2 hr.1 hr.2
  exact ⟨mul_nonneg (mul_nonneg (mul_nonneg hs1.1 htf.1) hr.1) hr.1, a3⟩

lemma prod3_mem {a b c : ℝ} (ha : 0 ≤ a ∧ a ≤ 1) (hb : 0 ≤ b ∧ b ≤ 1) (hc : 0 ≤ c ∧ c ≤ 1) :
    0 ≤ a * b * c ∧ a * b * c ≤ 1 := by
  have a1 : a * b ≤ 1 := mul_le_one₀ ha.2 hb.1 hb.2
  exact ⟨mul_nonneg (mul_nonneg ha.1 hb.1) hc.1, mul_le_one₀ a1 hc.1 hc.2⟩

lemma DropLayer2_height_mem (uv : ℝ × ℝ) (t size : ℝ) :
    0 ≤ (DropLayer2 uv t size).1 ∧ (DropLayer2 uv t size).1 ≤ 2 := by
  simp only [DropLayer2]
  exact combined_height_mem (smoothstep_mem _ _ _) (smoothstep_mem _ _ _)
    (smoothstep_mem _ _ _) (smoothstep_mem _ _ _) (heightMult_mem (N13_z_mem _))

lemma DropLayer2_trail_mem (uv : ℝ × ℝ) (t size : ℝ) :
    0 ≤ (DropLayer2 uv t size).2 ∧ (DropLayer2 uv t size).2 ≤ 1 := by
  simp only [DropLayer2]
  exact trail_mem (smoothstep_mem _ _ _) (smoothstep_mem _ _ _) (sqrt_smoothstep_mem _ _ _)

lemma StaticDrops_mem (uv : ℝ × ℝ) (t size : ℝ) :
    0 ≤ StaticDrops uv t size ∧ StaticDrops uv t size ≤ 1 := by
  simp only [StaticDrops]
  refine prod3_mem (smoothstep_mem _ _ _) ?_ (Saw_mem _ _)
  exact ⟨(fract_mem _).1, (fract_mem _).2.le⟩

lemma layerGains_fst_mem (rain : ℝ) :
    0 ≤ (layerGains rain).1 ∧ (layerGains rain).1 ≤ 0.3 := by
  have h := smoothstep_mem 0 1 rain
  simp only [layerGains]
  constructor
  · exact mul_nonneg h.1 (by norm_num)
  · nlinarith [h.1, h.2]

lemma layerGains_snd_mem (rain : ℝ) :
    0 ≤ (layerGains rain).2.1 ∧ (layerGains rain).2.1 ≤ 1 := by
  simp only [layerGains]
  exact smoothstep_mem 0 0.8 rain

lemma layerGains_thd_mem (rain : ℝ) :
    0 ≤ (layerGains rain).2.2 ∧ (layerGains rain).2.2 ≤ 0.3 := by
  have h := smoothstep_mem 0.5 1 rain
  simp only [layerGains]
  constructor
  · exact mul_nonneg h.1 (by norm_num)
  · nlinarith [h.1, h.2]

lemma preSmoothHeight_mem (uv : ℝ × ℝ) (t size : ℝ) {l0 l1 l2 : ℝ}
    (h0 : 0 ≤ l0 ∧ l0 ≤ 0.3) (h1 : 0 ≤ l1 ∧ l1 ≤ 1) (h2 : 0 ≤ l2 ∧ l2 ≤ 0.3) :
    0 ≤ preSmoothHeight uv t l0 l1 l2 size ∧ preSmoothHeight uv t l0 l1 l2 size ≤ 2.9 := by
  have hs := StaticDrops_mem uv t size
  have hm1 := DropLayer2_height_mem uv t size
  have hm2 := DropLayer2_height_mem (uv.1 * 1.85, uv.2 * 1.85) t size
  unfold preSmoothHeight
  constructor
  · exact add_nonneg (add_nonneg (mul_nonneg hs.1 h0.1) (mul_nonneg hm1.1 h1.1))
      (mul_nonneg hm2.1 h2.1)
  · have b0 : StaticDrops uv t size * l0 ≤ 0.3 := by
      nlinarith [mul_nonneg (sub_nonneg.2 hs.2) h0.1]
    have b1 : (DropLayer2 uv t size).1 * l1 ≤ 2 := by
      nlinarith [mul_nonneg (sub_nonneg.2 hm1.2) h1.1]
    have b2 : (DropLayer2 (uv.1 * 1.85, uv.2 * 1.85) t size).1 * l2 ≤ 0.6 := by
      nlinarith [mul_nonneg (sub_nonneg.2 hm2.2) h2.1]
    linarith

lemma GetHeightAndTrail_fst_mem (uv : ℝ × ℝ) (t l0 l1 l2 size : ℝ) :
    0 ≤ (GetHeightAndTrail uv t l0 l1 l2 size).1 ∧ (GetHeightAndTrail uv t l0 l1 l2 size).1 ≤ 1 := by
  simp only [GetHeightAndTrail]
  exact smoothstep_mem _ _ _

lemma GetHeightAndTrail_snd_mem (uv : ℝ × ℝ) (t size : ℝ) {l1 l2 : ℝ} (l0 : ℝ)
    (h1 : 0 ≤ l1 ∧ l1 ≤ 1) (h2 : 0 ≤ l2 ∧ l2 ≤ 1) :
    0 ≤ (GetHeightAndTrail uv t l0 l1 l2 size).2 ∧
      (GetHeightAndTrail uv t l0 l1 l2 size).2 ≤ 1 := by
  have hm1 := DropLayer2_trail_mem uv t size
  have hm2 := DropLayer2_trail_mem (uv.1 * 1.85, uv.2 * 1.85) t size
  simp only [GetHeightAndTrail]
  constructor
  · exact le_max_of_le_left (mul_nonneg hm1.1 h1.1)
  · exact max_le (mul_le_one₀ hm1.2 h1.1 h1.2) (mul_le_one₀ hm2.2 h2.1 h2.2)

lemma smoothstep_nonpos_arg {e0 e1 x : ℝ} (h : (x - e0) / (e1 - e0) ≤ 0) :
    smoothstep e0 e1 x = 0 := by
  simp only [smoothstep, clamp]
  rw [max_eq_right h, min_eq_left zero_le_one]
  ring

lemma layerGains_zero : layerGains 0 = (0, 0, 0) := by
  simp only [layerGains]
  rw [smoothstep_nonpos_arg (by norm_num : ((0:ℝ) - 0) / (1 - 0) ≤ 0),
    smoothstep_nonpos_arg (by norm_num : ((0:ℝ) - 0) / (0.8 - 0) ≤ 0),
    smoothstep_nonpos_arg (by norm_num : ((0:ℝ) - 0.5) / (1 - 0.5) ≤ 0)]
  norm_num

lemma GetHeightAndTrail_zero_gains (uv : ℝ × ℝ) (t size : ℝ) :
    GetHeightAndTrail uv t 0 0 0 size = (0, 0) := by
  simp only [GetHeightAndTrail, mul_zero, add_zero, zero_add, max_self]
  rw [smoothstep_nonpos_arg (by norm_num : ((0:ℝ) - 0) / (1 - 0) ≤ 0)]

lemma displayedColor_mem (u : Uniforms) (tex : ℝ × ℝ → ℝ → Vec3) (vUv : ℝ × ℝ) :
    (0 ≤ (displayedColor u tex vUv).x ∧ (displayedColor u tex vUv).x ≤ 1) ∧
    (0 ≤ (displayedColor u tex vUv).y ∧ (displayedColor u tex vUv).y ≤ 1) ∧
    (0 ≤ (displayedColor u tex vUv).z ∧ (displayedColor u tex vUv).z ≤ 1) := by
  simp only [displayedColor]
  exact ⟨clamp_mem _ zero_le_one, clamp_mem _ zero_le_one, clamp_mem _ zero_le_one⟩

end Basic

/-- Claim C1: the hash functions `N13` and `N` and the height-field compositor
`GetHeightAndTrail` are deterministic pure functions — repeated calls on the
same input give identical output — and the hash outputs lie in `[0,1)^3`
and `[0,1)` respectively. -/
theorem C1_hash_determinism_and_range (p t : ℝ) (uv : ℝ × ℝ) (tt l0 l1 l2 size : ℝ) :
    (N13 p = N13 p ∧ N t = N t ∧
      GetHeightAndTrail uv tt l0 l1 l2 size = GetHeightAndTrail uv tt l0 l1 l2 size) ∧
    (0 ≤ (N13 p).x ∧ (N13 p).x < 1) ∧
    (0 ≤ (N13 p).y ∧ (N13 p).y < 1) ∧
    (0 ≤ (N13 p).z ∧ (N13 p).z < 1) ∧
    (0 ≤ N t ∧ N t < 1) :=
  ⟨⟨rfl, rfl, rfl⟩, N13_x_mem p, N13_y_mem p, N13_z_mem p, N_mem t⟩

/-- Claim C2: for every surface coordinate, time and settings within the
documented ranges, the combined height before the final smoothstep is
nonnegative and bounded by the sum `0.3 + 2 + 0.6 = 2.9` of the layer
contributions, the height after the smoothstep lies in `[0,1]`, the trail
mask lies in `[0,1]`, and every final color channel stored by the
normalized render target lies in `[0,1]`. -/
theorem C2_range_invariants (u : Uniforms) (tex : ℝ × ℝ → ℝ → Vec3) (vUv uv : ℝ × ℝ) (t : ℝ)
    (hrain : 0 ≤ u.uRainIntensity ∧ u.uRainIntensity ≤ 1)
    (hsize : 0.5 ≤ u.uDropletSize ∧ u.uDropletSize ≤ 2)
    (hbright : 0 ≤ u.uBrightness ∧ u.uBrightness ≤ 2)
    (hcontr : 0 ≤ u.uContrast ∧ u.uContrast ≤ 2) :
    (0 ≤ preSmoothHeight uv t (layerGains u.uRainIntensity).1 (layerGains u.uRainIntensity).2.1
        (layerGains u.uRainIntensity).2.2 u.uDropletSize ∧
     preSmoothHeight uv t (layerGains u.uRainIntensity).1 (layerGains u.uRainIntensity).2.1
        (layerGains u.uRainIntensity).2.2 u.uDropletSize ≤ 2.9) ∧
    (0 ≤ (GetHeightAndTrail uv t (layerGains u.uRainIntensity).1
        (layerGains u.uRainIntensity).2.1 (layerGains u.uRainIntensity).2.2 u.uDropletSize).1 ∧
     (GetHeightAndTrail uv t (layerGains u.uRainIntensity).1
        (layerGains u.uRainIntensity).2.1 (layerGains u.uRainIntensity).2.2 u.uDropletSize).1 ≤ 1) ∧
    (0 ≤ (GetHeightAndTrail uv t (layerGains u.uRainIntensity).1
        (layerGains u.uRainIntensity).2.1 (layerGains u.uRainIntensity).2.2 u.uDropletSize).2 ∧
     (GetHeightAndTrail uv t (layerGains u.uRainIntensity).1
        (layerGains u.uRainIntensity).2.1 (layerGains u.uRainIntensity).2.2 u.uDropletSize).2 ≤ 1) ∧
    (0 ≤ (displayedColor u tex vUv).x ∧ (displayedColor u tex vUv).x ≤ 1) ∧
    (0 ≤ (displayedColor u tex vUv).y ∧ (displayedColor u tex vUv).y ≤ 1) ∧
    (0 ≤ (displayedColor u tex vUv).z ∧ (displayedColor u tex vUv).z ≤ 1) := by
  have hg0 := layerGains_fst_mem u.uRainIntensity
  have hg1 := layerGains_snd_mem u.uRainIntensity
  have hg2 := layerGains_thd_mem u.uRainIntensity
  have hd := displayedColor_mem u tex vUv
  refine ⟨preSmoothHeight_mem uv t u.uDropletSize hg0 hg1 hg2, ?_, ?_, hd.1, hd.2.1, hd.2.2⟩
  · exact GetHeightAndTrail_fst_mem uv t _ _ _ u.uDropletSize
  · exact GetHeightAndTrail_snd_mem uv t u.uDropletSize _ hg1 ⟨hg2.1, hg2.2.trans (by norm_num)⟩

/-- Witness for C2 at a concrete input. -/
theorem C2_range_invariants_witness :
    0 ≤ (GetHeightAndTrail (0, 0) 0 (layerGains (1/2)).1 (layerGains (1/2)).2.1
        (layerGains (1/2)).2.2 1).1 ∧
    (GetHeightAndTrail (0, 0) 0 (layerGains (1/2)).1 (layerGains (1/2)).2.1
        (layerGains (1/2)).2.2 1).1 ≤ 1 :=
  (C2_range_invariants ⟨0, 1/2, 1, 1, 0, 1, 1, 1, 1, 0, (1920, 1080), false, true, 1⟩
    (fun _ _ => v3 0 0 0) (1/2, 1/2) (0, 0) 0
    ⟨by norm_num, by norm_num⟩ ⟨by norm_num, by norm_num⟩
    ⟨by norm_num, by norm_num⟩ ⟨by norm_num, by norm_num⟩).2.1

/-- Claim C7: in the auto-fit cover transform, when the screen aspect exceeds
the image aspect only the vertical texture coordinate is rescaled, in the
opposite case only the horizontal one, and in every case the induced map
from physical screen coordinates `(p.1 * screenAspect, p.2)` to physical
image coordinates `(texUv.1 * imgAspect, texUv.2)` is an affine map with
the same positive scale factor `k` on both axes — an isotropic scaling,
never an anisotropic squash. -/
theorem C7_cover_fit (sa ia : ℝ) (hsa : 0 < sa) (hia : 0 < ia) :
    (ia < sa → ∀ p : ℝ × ℝ, (coverFit sa ia p).1 = p.1) ∧
    (sa < ia → ∀ p : ℝ × ℝ, (coverFit sa ia p).2 = p.2) ∧
    ∃ k c1 c2 : ℝ, 0 < k ∧ ∀ p : ℝ × ℝ,
      (coverFit sa ia p).1 * ia = k * (p.1 * sa) + c1 ∧
      (coverFit sa ia p).2 = k * p.2 + c2 := by
  by_cases h : ia < sa
  · refine ⟨fun _ p => by simp [coverFit, h], fun h' _ => absurd h (lt_asymm h'), ?_⟩
    refine ⟨ia / sa, 0, 0.5 - 0.5 * (ia / sa), div_pos hia hsa, fun p => ?_⟩
    constructor
    · simp only [coverFit, if_pos h]
      field_simp
      ring
    · simp only [coverFit, if_pos h]
      field_simp
      ring
  · refine ⟨fun h' => absurd h' h, fun _ p => by simp [coverFit, h], ?_⟩
    refine ⟨1, 0.5 * ia - 0.5 * sa, 0, one_pos, fun p => ?_⟩
    constructor
    · simp only [coverFit, if_neg h]
      field_simp
      ring
    · simp only [coverFit, if_neg h]
      ring

/-- Witness for C7 at the aspect pair screen 16:9 versus image 1:1. -/
theorem C7_cover_fit_witness :
    (coverFit ((16 : ℝ)/9) 1 ((1/4 : ℝ), (1/4 : ℝ))).1 = 1/4 :=
  (C7_cover_fit ((16 : ℝ)/9) 1 (by norm_num) (by norm_num)).1 (by norm_num) ((1/4 : ℝ), (1/4 : ℝ))

/-- Claim C8: with `rainIntensity = 0` all three layer gains vanish, the
height field and trail mask are `0` at every surface coordinate, the
finite-difference normal is `0`, refraction is a no-op (the sampling
coordinate equals the unrefracted `uv`), and the rendered color equals the
same pipeline applied to the unrefracted background sample (no droplet
lighting is added). -/
theorem C8_no_rain_passthrough (u : Uniforms) (tex : ℝ × ℝ → ℝ → Vec3) (vUv : ℝ × ℝ)
    (hrain : u.uRainIntensity = 0) :
    layerGains u.uRainIntensity = (0, 0, 0) ∧
    heightTrailAt u vUv = (0, 0) ∧
    normalAt u vUv = (0, 0) ∧
    refractionUVAt u vUv = shaderUV u vUv ∧
    mainColor u tex vUv = renderNoRain u tex vUv := by
  have hg : layerGains u.uRainIntensity = (0, 0, 0) := by rw [hrain]; exact layerGains_zero
  have hht : heightTrailAt u vUv = (0, 0) := by
    simp only [heightTrailAt, hg]
    exact GetHeightAndTrail_zero_gains _ _ _
  have hn : normalAt u vUv = (0, 0) := by
    simp only [normalAt, hg, GetHeightAndTrail_zero_gains]
    norm_num
  have e1 : smoothstep 0 0.4 (0:ℝ) = 0 :=
    smoothstep_nonpos_arg (by norm_num : ((0:ℝ) - 0) / (0.4 - 0) ≤ 0)
  have e2 : smoothstep 0.01 0.1 (0:ℝ) = 0 :=
    smoothstep_nonpos_arg (by norm_num : ((0:ℝ) - 0.01) / (0.1 - 0.01) ≤ 0)
  have e3 : ∀ a : ℝ, mix a 0 0 = a := fun a => by simp [mix]
  have e4 : mix 1 0.9 (0:ℝ) = 1 := by norm_num [mix]
  have e5 : ∀ c : Vec3, c.addScalar 0 = c := fun c => by simp [Vec3.addScalar]
  have e6 : ∀ c : Vec3, Vec3.scale 1 c = c := fun c => by simp [Vec3.scale]
  refine ⟨hg, hht, hn, ?_, ?_⟩
  · simp [refractionUVAt, hn]
  · simp only [mainColor, renderNoRain, hht, hn, sub_zero, add_zero, zero_add, mul_zero,
      zero_mul, e1, e2, e3, e4, e5, e6]

/-- Witness for C8 at a concrete input. -/
theorem C8_no_rain_passthrough_witness :
    mainColor ⟨0, 0, 1, 1, 0, 1, 1, 1, 1, 0, (1920, 1080), false, true, 1⟩
      (fun _ _ => v3 0 0 0) (1/2, 1/2) =
    renderNoRain ⟨0, 0, 1, 1, 0, 1, 1, 1, 1, 0, (1920, 1080), false, true, 1⟩
      (fun _ _ => v3 0 0 0) (1/2, 1/2) :=
  (C8_no_rain_passthrough ⟨0, 0, 1, 1, 0, 1, 1, 1, 1, 0, (1920, 1080), false, true, 1⟩
    (fun _ _ => v3 0 0 0) (1/2, 1/2) rfl).2.2.2.2

lemma firstPausedIdx_spec (l : List Bool) :
    (firstPausedIdx l = none ∧ ∀ b ∈ l, b = false) ∨
    ∃ i, firstPausedIdx l = some i ∧ i < l.length ∧ l.getD i false = true ∧
      ∀ j, j < i → l.getD j false = false := by
  induction l with
  | nil => exact Or.inl ⟨rfl, by simp⟩
  | cons b t ih =>
    cases b with
    | true =>
      exact Or.inr ⟨0, by simp [firstPausedIdx], by simp, by simp, fun j hj => by omega⟩
    | false =>
      rcases ih with ⟨hnone, hall⟩ | ⟨i, hsome, hlt, hget, hbefore⟩
      · refine Or.inl ⟨by simp [firstPausedIdx, hnone], ?_⟩
        intro x hx
        rcases List.mem_cons.mp hx with h | h
        · exact h
        · exact hall x h
      · refine Or.inr ⟨i + 1, by simp [firstPausedIdx, hsome], by simpa using hlt, ?_, ?_⟩
        · simpa using hget
        · intro j hj
          cases j with
          | zero => simp
          | succ k => simpa using hbefore k (by omega)

/-- Claim C5: for every distance in `[0,1]`, when the guard passes,
`triggerThunder` schedules playback on the first paused instance of the
4-slot pool (or slot 0 when none is paused), with
`delay = distance * 4000 + random * 500`,
`volume = max(0.1, (1 - distance) * 0.8) * globalVolumeScalar` and
`playbackRate = 1.1 - distance * 0.5 + random * 0.1`. -/
theorem C5_thunder_mapping (st : AudioState) (d r1 r2 : ℚ)
    (hd : 0 ≤ d ∧ d ≤ 1) (hinit : st.isInit = true)
    (hvol : 0.05 < st.globalVolumeScalar)
    (hlen : st.thunderPaused.length = THUNDER_POOL_SIZE) :
    ∃ p : ThunderPlay, triggerThunder st d r1 r2 = some p ∧
      p.delayMs = d * 4000 + r1 * 500 ∧
      p.volume = max 0.1 ((1 - d) * 0.8) * st.globalVolumeScalar ∧
      p.rate = 1.1 - d * 0.5 + r2 * 0.1 ∧
      p.slot < THUNDER_POOL_SIZE ∧
      ((∃ i, firstPausedIdx st.thunderPaused = some i ∧ p.slot = i ∧
          st.thunderPaused.getD i false = true ∧
          ∀ j, j < i → st.thunderPaused.getD j false = false) ∨
        (p.slot = 0 ∧ ∀ b ∈ st.thunderPaused, b = false)) := by
  have hcond : ¬(st.isInit = false ∨ st.globalVolumeScalar ≤ 0.05) := by
    push_neg
    exact ⟨by simp [hinit], hvol⟩
  rw [triggerThunder, if_neg hcond]
  refine ⟨_, rfl, rfl, rfl, rfl, ?_, ?_⟩
  · rcases firstPausedIdx_spec st.thunderPaused with ⟨hnone, -⟩ | ⟨i, hsome, hlt, -, -⟩
    · simp [hnone, THUNDER_POOL_SIZE]
    · rw [hlen] at hlt
      simpa [hsome] using hlt
  · rcases firstPausedIdx_spec st.thunderPaused with ⟨hnone, hall⟩ | ⟨i, hsome, hlt, hget, hbef⟩
    · exact Or.inr ⟨by simp [hnone], hall⟩
    · exact Or.inl ⟨i, hsome, by simp [hsome], hget, hbef⟩

/-- Witness for C5 at a concrete pool state. -/
theorem C5_thunder_mapping_witness :
    (triggerThunder ⟨true, 1, [false, true, false, false]⟩ (1/2) 0 0).isSome = true := by
  obtain ⟨p, hp, -⟩ := C5_thunder_mapping ⟨true, 1, [false, true, false, false]⟩ (1/2) 0 0
    ⟨by norm_num, by norm_num⟩ rfl (by norm_num) rfl
  rw [hp]
  rfl

/-- Claim C10: `triggerThunder` is a no-op (nothing scheduled, no state
touched) whenever the audio system is uninitialized or the global volume
scalar is at or below `0.05`, even though the event-volume formula itself
has a `0.1` floor before scaling. -/
theorem C10_thunder_muted_noop (st : AudioState) (d r1 r2 : ℚ)
    (h : st.isInit = false ∨ st.globalVolumeScalar ≤ 0.05) :
    triggerThunder st d r1 r2 = none ∧ (0.1 : ℚ) ≤ max 0.1 ((1 - d) * 0.8) :=
  ⟨by rw [triggerThunder, if_pos h], le_max_left _ _⟩

/-- Witness for C10: master volume 0.04 silently drops the event. -/
theorem C10_thunder_muted_noop_witness :
    triggerThunder ⟨true, 1/25, [true, true, true, true]⟩ 0 0 0 = none ∧
    (0.1 : ℚ) ≤ max 0.1 ((1 - (0 : ℚ)) * 0.8) :=
  C10_thunder_muted_noop ⟨true, 1/25, [true, true, true, true]⟩ 0 0 0 (Or.inr (by norm_num))

/-- Counterexample for C3: with a pending delay of 30000 ms, changing the
storm intensity to the non-zero value 0.9 replaces the pending timer with a
freshly computed delay (5000 ms for a zero random draw) — the pending delay
is not preserved. -/
theorem C3_pending_delay_counterexample :
    (setIntensity ⟨1/2, some 30000⟩ (9/10) 0).timer = some 5000 ∧
    (setIntensity ⟨1/2, some 30000⟩ (9/10) 0).timer ≠ some 30000 := by
  constructor
  · norm_num [setIntensity, scheduleLightning]
  · norm_num [setIntensity, scheduleLightning]

/-- Claim C3 (amended): changing `stormIntensity` to a new value `v > 0.01`
while the scheduler is Armed cancels the pending timer and immediately
re-arms with the fresh delay `5000 + random * ((1 - v) * 40000)` computed
from the new intensity; the previously pending delay is discarded. -/
theorem C3_rearm_fresh_delay (s : SchedState) (v r : ℚ) (hv : 0.01 < v) :
    (setIntensity s v r).intensity = v ∧
    (setIntensity s v r).timer = some (5000 + r * ((1 - v) * 40000)) := by
  refine ⟨rfl, ?_⟩
  simp only [setIntensity]
  rw [if_pos (lt_trans (by norm_num) hv), scheduleLightning, if_neg (not_le.mpr hv)]

/-- Witness for the amended C3. -/
theorem C3_rearm_fresh_delay_witness :
    (setIntensity ⟨0, some 123⟩ (1/2) 0).timer = some (5000 + 0 * ((1 - 1/2) * 40000)) :=
  (C3_rearm_fresh_delay ⟨0, some 123⟩ (1/2) 0 (by norm_num)).2

lemma schedRun_silent (audio : Bool) (evs : List SchedEv) :
    ∀ s : SchedState, s.timer = none → (∀ e ∈ evs, raisesIntensity e = false) →
      outputsSilent (schedRun audio s evs).2 = true ∧ (schedRun audio s evs).1.timer = none := by
  induction evs with
  | nil => exact fun s hs _ => ⟨rfl, hs⟩
  | cons e rest ih =>
    intro s hs hall
    have he := hall e (List.mem_cons_self e rest)
    have hrest : ∀ e' ∈ rest, raisesIntensity e' = false :=
      fun e' he' => hall e' (List.mem_cons_of_mem e he')
    cases e with
    | set v r =>
      have hv : ¬(0 < v) := by simpa [raisesIntensity] using he
      have hnone : (setIntensity s v r).timer = none := by simp [setIntensity, hv]
      obtain ⟨ho, ht⟩ := ih (setIntensity s v r) hnone hrest
      constructor
      · simpa [schedRun, schedStep, outputsSilent] using ho
      · simpa [schedRun, schedStep] using ht
    | fire rGate rRaw rNext =>
      obtain ⟨ho, ht⟩ := ih s hs hrest
      constructor
      · simpa [schedRun, schedStep, hs, outputsSilent] using ho
      · simpa [schedRun, schedStep, hs] using ht

/-- Claim C6: setting `stormIntensity` to 0 cancels any pending Armed timer
immediately, and no flash or thunder event fires in any subsequent run of
the scheduler that contains no event raising the intensity above 0. -/
theorem C6_idle_property (s : SchedState) (r : ℚ) (audio : Bool) (evs : List SchedEv)
    (hevs : ∀ e ∈ evs, raisesIntensity e = false) :
    (setIntensity s 0 r).timer = none ∧
    outputsSilent (schedRun audio (setIntensity s 0 r) evs).2 = true := by
  have h0 : (setIntensity s 0 r).timer = none := by norm_num [setIntensity]
  exact ⟨h0, (schedRun_silent audio evs _ h0 hevs).1⟩

/-- Witness for C6: a concrete Armed state, set to zero, then a timer expiry,
a further zero set, and another expiry — all silent. -/
theorem C6_idle_property_witness :
    (setIntensity ⟨1, some 9000⟩ 0 0).timer = none ∧
    outputsSilent (schedRun true (setIntensity ⟨1, some 9000⟩ 0 0)
      [SchedEv.fire 0 (1/2) 0, SchedEv.set 0 0, SchedEv.fire (9/10) (1/2) (1/3)]).2 = true :=
  C6_idle_property ⟨1, some 9000⟩ 0 true
    [SchedEv.fire 0 (1/2) 0, SchedEv.set 0 0, SchedEv.fire (9/10) (1/2) (1/3)]
    (by intro e he
        rcases List.mem_cons.mp he with h | he1
        · subst h; rfl
        rcases List.mem_cons.mp he1 with h | he2
        · subst h; norm_num [raisesIntensity]
        rcases List.mem_cons.mp he2 with h | he3
        · subst h; rfl
        · simp at he3)

/-- Claim C9 (code-bug exhibit): select image A, then image B while A's load
is in flight; B's texture arrives, then A's stale texture arrives late —
the load callback applies it unconditionally, so the texture of the
no-longer-selected image A becomes the current texture while B is the
selected background. -/
theorem C9_stale_texture_applied :
    (textureLoaded (textureLoaded (selectBackground (selectBackground ⟨none, none, []⟩
        (some "A")) (some "B")) "B") "A").selected = some "B" ∧
    (textureLoaded (textureLoaded (selectBackground (selectBackground ⟨none, none, []⟩
        (some "A")) (some "B")) "B") "A").current = some "A" := by
  constructor <;> rfl

lemma clamp_shift_integral (s : ℝ) (hs0 : 0 ≤ s) (hs1 : s ≤ 1) :
    ∫ u in (0:ℝ)..1, max 0 (min 1 (u - s)) = (1 - s) ^ 2 / 2 := by
  have hcont2 : Continuous fun u : ℝ => max 0 (u - s) :=
    continuous_const.max (continuous_id.sub continuous_const)
  have step1 : ∫ u in (0:ℝ)..1, max 0 (min 1 (u - s)) = ∫ u in (0:ℝ)..1, max 0 (u - s) := by
    apply intervalIntegral.integral_congr
    intro u hu
    rw [Set.uIcc_of_le (by norm_num : (0:ℝ) ≤ 1)] at hu
    have h1 : u - s ≤ 1 := by linarith [hu.2]
    show max 0 (min 1 (u - s)) = max 0 (u - s)
    rw [min_eq_right h1]
  have hsplit : (∫ u in (0:ℝ)..s, max 0 (u - s)) + (∫ u in s..1, max 0 (u - s)) =
      ∫ u in (0:ℝ)..1, max 0 (u - s) :=
    intervalIntegral.integral_add_adjacent_intervals (hcont2.intervalIntegrable _ _)
      (hcont2.intervalIntegrable _ _)
  have hleft : ∫ u in (0:ℝ)..s, max 0 (u - s) = 0 := by
    have hz : ∫ u in (0:ℝ)..s, max 0 (u - s) = ∫ u in (0:ℝ)..s, (0:ℝ) := by
      apply intervalIntegral.integral_congr
      intro u hu
      rw [Set.uIcc_of_le hs0] at hu
      exact max_eq_left (by linarith [hu.2])
    rw [hz, intervalIntegral.integral_zero]
  have hright : ∫ u in s..1, max 0 (u - s) = ∫ u in s..1, (u - s) := by
    apply intervalIntegral.integral_congr
    intro u hu
    rw [Set.uIcc_of_le hs1] at hu
    exact max_eq_right (by linarith [hu.1])
  have hval : ∫ u in s..1, (u - s) = (1 - s ^ 2) / 2 - (1 - s) * s := by
    rw [intervalIntegral.integral_sub intervalIntegral.intervalIntegrable_id
      intervalIntegrable_const, integral_id, intervalIntegral.integral_const]
    simp only [smul_eq_mul]
    ring
  rw [step1, ← hsplit, hleft, hright, hval]
  ring

/-- Claim C4: the generated lightning distance is
`clamp(random() - stormIntensity * 0.3, 0, 1)`: the scheduler emits exactly
that value as the thunder distance, for any fixed draw the distance is
non-increasing in the storm intensity, and the expected distance over a
uniform draw at intensity 0.9 is strictly lower than at intensity 0.1. -/
theorem C4_distance_bias :
    (∀ raw i1 i2 : ℝ, i1 ≤ i2 → lightningDistance raw i2 ≤ lightningDistance raw i1) ∧
    (∀ v rGate rRaw : ℚ, ¬(0.8 < rGate) →
      (triggerLightningEvent v true rGate rRaw).thunder =
        some (max 0 (min 1 (rRaw - v * 0.3)))) ∧
    (∫ u in (0:ℝ)..1, lightningDistance u 0.9) < ∫ u in (0:ℝ)..1, lightningDistance u 0.1 := by
  refine ⟨?_, ?_, ?_⟩
  · intro raw i1 i2 h
    unfold lightningDistance
    have hsub : raw - i2 * 0.3 ≤ raw - i1 * 0.3 := by nlinarith
    exact max_le_max le_rfl (min_le_min le_rfl hsub)
  · intro v rGate rRaw h
    simp [triggerLightningEvent, h]
  · have e9 : ∀ u ∈ Set.uIcc (0:ℝ) 1, lightningDistance u 0.9 = max 0 (min 1 (u - 0.27)) := by
      intro u _
      unfold lightningDistance
      norm_num
    have e1 : ∀ u ∈ Set.uIcc (0:ℝ) 1, lightningDistance u 0.1 = max 0 (min 1 (u - 0.03)) := by
      intro u _
      unfold lightningDistance
      norm_num
    rw [intervalIntegral.integral_congr e9, intervalIntegral.integral_congr e1,
      clamp_shift_integral 0.27 (by norm_num) (by norm_num),
      clamp_shift_integral 0.03 (by norm_num) (by norm_num)]
    norm_num

/-- Witness for C4 at concrete draws and intensities. -/
theorem C4_distance_bias_witness :
    lightningDistance (1/2) (9/10) ≤ lightningDistance (1/2) (1/10) ∧
    (triggerLightningEvent (9/10) true 0 (1/2)).thunder =
      some (max 0 (min 1 ((1/2 : ℚ) - (9/10) * 0.3))) :=
  ⟨C4_distance_bias.1 (1/2) (1/10) (9/10) (by norm_num),
   C4_distance_bias.2.1 (9/10) 0 (1/2) (by norm_num)⟩

end RainyThoughts
